import Mathlib

/-!
Verification development for the KPI aggregation engine of the
Panel-Fabrica repository (src/app.py).

The engine is embedded shallowly:

* pandas DataFrames become lists of row structures; a nullable cell
  (NaN in pandas) is an `Option` value;
* the date column after `pd.to_datetime(..., errors="coerce")` is an
  `Option Date`: `some d` for a cell that parses to the calendar date
  `d`, `none` for an unparseable cell (NaT), which every comparison
  treats as false, exactly as pandas does;
* floating point numbers are modelled by `ℚ` (the spec speaks of exact
  sums); the Python `int(...)` cast is truncation toward zero;
* `np.busday_count` is modelled on day numbers (days since 1970-01-01,
  computed by the standard civil-calendar algorithm) with the numpy
  convention: count of Monday-Friday days in the half-open range
  [begin, end), negated when end < begin.
-/

/-- Calendar date (year, month, day), as `datetime.date` values. -/
structure Date where
  year : Nat
  month : Nat
  day : Nat
deriving DecidableEq, Repr

/-- Gregorian leap-year test. -/
def isLeapYear (y : Nat) : Bool :=
  (y % 4 == 0 && y % 100 != 0) || (y % 400 == 0)

/-- Number of days of month `m` of year `y`. -/
def daysInMonth (y m : Nat) : Nat :=
  if m = 2 then (if isLeapYear y then 29 else 28)
  else if m = 4 ∨ m = 6 ∨ m = 9 ∨ m = 11 then 30 else 31

/-- Day number of a date: days since 1970-01-01 (standard
days-from-civil algorithm; 1970-01-01 is day 0, a Thursday). This is
the day count `datetime.date` comparisons and `np.busday_count`
operate on. -/
def daysFromCivil (dt : Date) : Int :=
  let y : Nat := if dt.month ≤ 2 then dt.year - 1 else dt.year
  let era : Nat := y / 400
  let yoe : Nat := y - era * 400
  let mp : Nat := (dt.month + 9) % 12
  let doy : Nat := (153 * mp + 2) / 5 + dt.day - 1
  let doe : Nat := yoe * 365 + yoe / 4 - yoe / 100 + doy
  (era * 146097 + doe : Int) - 719468

/-- Weekday number of a day number: 0 = Sunday, 1 = Monday, ...,
4 = Thursday (day 0 = 1970-01-01), 6 = Saturday. -/
def weekdayNum (n : Int) : Int :=
  (n + 4) % 7

/-- Monday-through-Friday test on a day number (the numpy default
weekmask used by `np.busday_count`). -/
def isBusinessDayNum (n : Int) : Bool :=
  decide (1 ≤ weekdayNum n) && decide (weekdayNum n ≤ 5)

/-- Model of `np.busday_count` on day numbers: the number of
Monday-Friday days in the half-open range [a, b); when b < a the
result is the negated count over [b, a). -/
def busdayCountNum (a b : Int) : Int :=
  if a ≤ b then
    ((List.range (b - a).toNat).countP (fun k : Nat => isBusinessDayNum (a + (k : Int))) : Int)
  else
    -(((List.range (a - b).toNat).countP (fun k : Nat => isBusinessDayNum (b + (k : Int)))) : Int)

/-- Source `business_days_count(start, end)`:
`int(np.busday_count(start, end + relativedelta(days=1)))`, counting
Monday-Friday days in the inclusive range [start, end]. -/
def business_days_count (start finish : Date) : Int :=
  busdayCountNum (daysFromCivil start) (daysFromCivil finish + 1)

/-- One step of `relativedelta(months=1)`: the same day one month
later, the day clamped to the length of the target month. -/
def addMonths1 (dt : Date) : Date :=
  let y : Nat := if dt.month = 12 then dt.year + 1 else dt.year
  let m : Nat := if dt.month = 12 then 1 else dt.month + 1
  ⟨y, m, min dt.day (daysInMonth y m)⟩

/-- One step of `relativedelta(days=1)` subtracted: the previous
calendar day. -/
def subDays1 (dt : Date) : Date :=
  if 1 < dt.day then ⟨dt.year, dt.month, dt.day - 1⟩
  else if 1 < dt.month then ⟨dt.year, dt.month - 1, daysInMonth dt.year (dt.month - 1)⟩
  else ⟨dt.year - 1, 12, 31⟩

/-- Source `month_bounds(dt)`: `start = dt.replace(day=1)` and
`end = (start + relativedelta(months=1)) - relativedelta(days=1)`. -/
def month_bounds (dt : Date) : Date × Date :=
  let start : Date := ⟨dt.year, dt.month, 1⟩
  (start, subDays1 (addMonths1 start))

/-- Truncation of a rational toward zero, the effect of the Python
`int(...)` cast applied to the summed quantities. -/
def ratTrunc (q : ℚ) : ℤ :=
  Int.tdiv q.num (q.den : ℤ)

/-- Source expression `objetivo_diario`:
`(costo_mensual / dias_habiles_mes) if dias_habiles_mes else 0.0`. -/
def objetivo_diario (costo_mensual : ℚ) (dias_habiles_mes : ℤ) : ℚ :=
  if dias_habiles_mes ≠ 0 then costo_mensual / (dias_habiles_mes : ℚ) else 0

/-- Source expression `objetivo_a_hoy = objetivo_diario * dias_habiles_transc`. -/
def objetivo_a_hoy (costo_mensual : ℚ) (dias_habiles_mes dias_habiles_transc : ℤ) : ℚ :=
  objetivo_diario costo_mensual dias_habiles_mes * (dias_habiles_transc : ℚ)

/-- Source expression `pct_fabricado`:
`(costo_mo_fabricado / objetivo_a_hoy) if objetivo_a_hoy else 0`. -/
def pct_fabricado (costo_mo_fabricado objetivo : ℚ) : ℚ :=
  if objetivo ≠ 0 then costo_mo_fabricado / objetivo else 0

/-- Source expression `pct_recuperado`:
`(costo_mo_recuperado / objetivo_a_hoy) if objetivo_a_hoy else 0`. -/
def pct_recuperado (costo_mo_recuperado objetivo : ℚ) : ℚ :=
  if objetivo ≠ 0 then costo_mo_recuperado / objetivo else 0

/-- Row of the MATERIAL sheet after the rename in
`compute_unit_labor_cost`: `MATE_CODIGO → OPERACION` (key) and
`MATE_CRM → COSTO_OPERACION` (cost per unit, nullable). -/
structure MatRow where
  operacion : String
  costo_operacion : Option ℚ
deriving DecidableEq, Repr

/-- Row of the DETALLE_BOM sheet after the rename:
`MBOM_CODIGO → SKU` (nullable cell), `MATE_CODIGO → OPERACION`,
`DEBO_CANTIDAD → CANTIDAD_OP` (nullable). -/
structure BomRow where
  sku : Option String
  operacion : String
  cantidad_op : Option ℚ
deriving DecidableEq, Repr

/-- Values attached to key `k` in a keyed table: the matches a pandas
merge produces for one left row. -/
def leftMatches {β : Type} (tbl : List (String × β)) (k : String) : List β :=
  (tbl.filter (fun p => decide (p.1 = k))).map Prod.snd

/-- Row of the merged BOM/MATERIAL frame after both `fillna(0.0)`
calls: SKU, operation quantity and operation cost with nulls already
replaced by 0. -/
structure BomCostRow where
  sku : Option String
  cantidad_op : ℚ
  costo_operacion : ℚ
deriving DecidableEq, Repr

/-- Left merge `bom.merge(mat[["OPERACION", "COSTO_OPERACION"]],
on="OPERACION", how="left")` followed by the two `fillna(0.0)` calls:
every BOM line is kept, one output row per matching MATERIAL row, a
line without a match keeps a null cost which the fillna turns to 0. -/
def mergedBom (df_material : List MatRow) (df_bom : List BomRow) : List BomCostRow :=
  df_bom.flatMap (fun b =>
    let ms := leftMatches (df_material.map (fun r => (r.operacion, r.costo_operacion))) b.operacion
    if ms.isEmpty then [⟨b.sku, b.cantidad_op.getD 0, 0⟩]
    else ms.map (fun c => ⟨b.sku, b.cantidad_op.getD 0, c.getD 0⟩))

/-- Group keys of a pandas `groupby` on a nullable column: the
distinct non-null keys (null keys are dropped by `groupby`). Row
order of the grouped output is abstracted. -/
def groupKeys {α : Type} (keyOf : α → Option String) (l : List α) : List String :=
  ((l.map keyOf).filterMap id).dedup

/-- Model of `l.groupby(key)[val].sum()`: one row per distinct
non-null key, carrying the sum of `valOf` over the rows of that
group. -/
def groupSum {α : Type} (keyOf : α → Option String) (valOf : α → ℚ) (l : List α) :
    List (String × ℚ) :=
  (groupKeys keyOf l).map (fun k =>
    (k, ((l.filter (fun x => decide (keyOf x = some k))).map valOf).sum))

/-- Source `compute_unit_labor_cost(df_material, df_bom)`: merge BOM
lines with operation costs, fill nulls with 0, multiply quantity by
cost (`COSTO_PARCIAL`) and sum per SKU (`COSTO_MO_UNIT`). -/
def compute_unit_labor_cost (df_material : List MatRow) (df_bom : List BomRow) :
    List (String × ℚ) :=
  groupSum BomCostRow.sku (fun r => r.cantidad_op * r.costo_operacion)
    (mergedBom df_material df_bom)

/-- Cost of one operation as the spec words it: 0 when the operation
is absent from the cost table or its cost is null, the stored cost
otherwise. -/
def costOfOp (df_material : List MatRow) (op : String) : ℚ :=
  match df_material.find? (fun r => decide (r.operacion = op)) with
  | none => 0
  | some r => r.costo_operacion.getD 0

/-- Specification-side unit labor cost of SKU `s`: the sum over all
BOM lines of `s` of (operation quantity x operation cost), a missing
quantity or a missing cost contributing 0. -/
def specUnitLaborCost (df_material : List MatRow) (df_bom : List BomRow) (s : String) : ℚ :=
  ((df_bom.filter (fun b => decide (b.sku = some s))).map
    (fun b => b.cantidad_op.getD 0 * costOfOp df_material b.operacion)).sum

/-- Row of the MOVIMIENTO_STOCK sheet after the rename in
`aggregate_current_month`: `AUDI_FECHA_ALTA → FECHA` (the normalized
date: `some d` when the cell parses to the date `d`, `none` when
`pd.to_datetime(..., errors="coerce")` yields NaT), `MATE_CODIGO →
SKU` (nullable), `MOST_CANTIDAD → CANTIDAD` (nullable). -/
structure MovRow where
  fecha : Option Date
  sku : Option String
  cantidad : Option ℚ
deriving DecidableEq, Repr

/-- Row of the REPORTE_DE_PEDIDOS sheet after the rename:
`AUDI_FECHA_ALTA → FECHA` (normalized as for movements), SKU
(nullable), CANTIDAD (nullable), `MARGEN_3 → MARGEN` (nullable). -/
structure RepRow where
  fecha : Option Date
  sku : Option String
  cantidad : Option ℚ
  margen : Option ℚ
deriving DecidableEq, Repr

/-- Month-to-date filter of `aggregate_current_month`:
`(FECHA >= month_start) & (FECHA <= today)`. A NaT date (the `none`
case) compares false and the row is excluded. -/
def inWindow (month_start today : Date) (fecha : Option Date) : Bool :=
  match fecha with
  | none => false
  | some d =>
      decide (daysFromCivil month_start ≤ daysFromCivil d) &&
        decide (daysFromCivil d ≤ daysFromCivil today)

/-- Row of `prod_with_cost` / `ventas_with_cost`: SKU, summed
quantity, joined unit labor cost (0 when the SKU is absent from the
unit-cost table) and the product column (`COSTO_MO_TOTAL` for
production, `COSTO_MO_RECUP` for sales). -/
structure CostedRow where
  sku : String
  cantidad : ℚ
  costo_mo_unit : ℚ
  costo_mo_total : ℚ
deriving DecidableEq, Repr

/-- Left merge of a grouped (SKU, quantity) table with the unit-cost
table on SKU, followed by `fillna({"COSTO_MO_UNIT": 0.0})`. -/
def mergeUnitCost (g : List (String × ℚ)) (unit_cost : List (String × ℚ)) :
    List (String × ℚ × ℚ) :=
  g.flatMap (fun p =>
    let ms := leftMatches unit_cost p.1
    if ms.isEmpty then [(p.1, p.2, 0)]
    else ms.map (fun c => (p.1, p.2, c)))

/-- Column assignment multiplying quantity by unit cost
(`COSTO_MO_TOTAL` / `COSTO_MO_RECUP`). -/
def withTotal (l : List (String × ℚ × ℚ)) : List CostedRow :=
  l.map (fun t => ⟨t.1, t.2.1, t.2.2, t.2.1 * t.2.2⟩)

/-- Per-SKU costed table built from the month-filtered rows: group
quantities by SKU (null quantities summed as 0, null SKUs dropped by
`groupby`), left-join the unit cost and multiply. -/
def costedTable (cells : List (Option String × Option ℚ)) (unit_cost : List (String × ℚ)) :
    List CostedRow :=
  withTotal (mergeUnitCost (groupSum Prod.fst (fun c => c.2.getD 0) cells) unit_cost)

/-- Output structure of `aggregate_current_month` (the returned
dict). -/
structure AggResult where
  prod_by_sku : List CostedRow
  ventas_by_sku : List CostedRow
  total_fabricados : ℤ
  costo_mo_fabricado : ℚ
  total_vendidos : ℤ
  costo_mo_recuperado : ℚ
  margen_bruto_actual : ℚ
deriving DecidableEq, Repr

/-- Body of `aggregate_current_month` after the month filter: builds
both per-SKU tables and the five scalar totals (each scalar guarded
by the emptiness test of the code, the two count scalars truncated by
the `int(...)` cast). -/
def month_kpis (mov_month : List MovRow) (rep_month : List RepRow)
    (unit_cost : List (String × ℚ)) : AggResult :=
  let prod_with_cost := costedTable (mov_month.map (fun r => (r.sku, r.cantidad))) unit_cost
  let ventas_with_cost := costedTable (rep_month.map (fun r => (r.sku, r.cantidad))) unit_cost
  { prod_by_sku := prod_with_cost
    ventas_by_sku := ventas_with_cost
    total_fabricados :=
      if prod_with_cost.isEmpty then 0
      else ratTrunc ((prod_with_cost.map (fun r => r.cantidad)).sum)
    costo_mo_fabricado :=
      if prod_with_cost.isEmpty then 0
      else (prod_with_cost.map (fun r => r.costo_mo_total)).sum
    total_vendidos :=
      if ventas_with_cost.isEmpty then 0
      else ratTrunc ((ventas_with_cost.map (fun r => r.cantidad)).sum)
    costo_mo_recuperado :=
      if ventas_with_cost.isEmpty then 0
      else (ventas_with_cost.map (fun r => r.costo_mo_total)).sum
    margen_bruto_actual :=
      if rep_month.isEmpty then 0
      else (rep_month.map (fun r => r.margen.getD 0)).sum }

/-- Source `aggregate_current_month(df_mov, df_rep, unit_cost,
today)`: compute `month_start` from `month_bounds(today)`, filter both
record sets to the inclusive window [month_start, today] and reduce. -/
def aggregate_current_month (df_mov : List MovRow) (df_rep : List RepRow)
    (unit_cost : List (String × ℚ)) (today : Date) : AggResult :=
  month_kpis
    (df_mov.filter (fun r => inWindow (month_bounds today).1 today r.fecha))
    (df_rep.filter (fun r => inWindow (month_bounds today).1 today r.fecha))
    unit_cost

/-- Row of the production table for one SKU, if present. -/
def prodRow (res : AggResult) (s : String) : Option CostedRow :=
  res.prod_by_sku.find? (fun r => decide (r.sku = s))

/-- Aggregated production quantity of one SKU, if present. -/
def prodQty (res : AggResult) (s : String) : Option ℚ :=
  (prodRow res s).map (fun r => r.cantidad)

/-- Row of the sales table for one SKU, if present. -/
def ventasRow (res : AggResult) (s : String) : Option CostedRow :=
  res.ventas_by_sku.find? (fun r => decide (r.sku = s))

/-- Aggregated sales quantity of one SKU, if present. -/
def ventasQty (res : AggResult) (s : String) : Option ℚ :=
  (ventasRow res s).map (fun r => r.cantidad)

/-- Unit-cost lookup with default 0: the effect on one grouped row of
the left merge with the unit-cost table followed by
`fillna({"COSTO_MO_UNIT": 0.0})`, valid when the table keys are
unique. -/
def ucLook (unit_cost : List (String × ℚ)) (s : String) : ℚ :=
  ((unit_cost.find? (fun p => decide (p.1 = s))).map Prod.snd).getD 0

/-- Summed quantity of key `k` over (SKU, quantity) cells, null
quantities counted as 0. -/
def cellQty (cells : List (Option String × Option ℚ)) (k : String) : ℚ :=
  ((cells.filter (fun x => decide (x.1 = some k))).map (fun x => x.2.getD 0)).sum

theorem guardSum {α : Type} (l : List α) (f : α → ℚ) :
    (if l.isEmpty then (0 : ℚ) else (l.map f).sum) = (l.map f).sum := by
  cases l <;> simp

theorem isEmpty_snoc {α : Type} (l : List α) (x : α) : (l ++ [x]).isEmpty = false := by
  cases l <;> simp

theorem find_map_keyed {β : Type} (mk : String → β) (keyf : β → String)
    (hk : ∀ x, keyf (mk x) = x) (keys : List String) (k : String) :
    (keys.map mk).find? (fun r => decide (keyf r = k)) =
      if k ∈ keys then some (mk k) else none := by
  induction keys with
  | nil => simp
  | cons x xs ih =>
    by_cases hx : x = k
    · subst hx
      rw [List.map_cons, List.find?_cons_of_pos _ (by simp [hk])]
      simp
    · have hx2 : ¬ k = x := fun h => hx h.symm
      rw [List.map_cons, List.find?_cons_of_neg _ (by simp [hk, hx]), ih]
      simp [List.mem_cons, hx2]

theorem mem_groupKeys {α : Type} (keyOf : α → Option String) (l : List α) (k : String) :
    k ∈ groupKeys keyOf l ↔ ∃ a ∈ l, keyOf a = some k := by
  unfold groupKeys
  rw [List.mem_dedup, List.filterMap_map]
  simp [List.mem_filterMap]

theorem groupSum_keys {α : Type} (keyOf : α → Option String) (valOf : α → ℚ) (l : List α) :
    (groupSum keyOf valOf l).map Prod.fst = groupKeys keyOf l := by
  unfold groupSum
  rw [List.map_map]
  exact List.map_id _

theorem groupSum_val {α : Type} (keyOf : α → Option String) (valOf : α → ℚ) (l : List α)
    (p : String × ℚ) (hp : p ∈ groupSum keyOf valOf l) :
    p.2 = ((l.filter (fun x => decide (keyOf x = some p.1))).map valOf).sum := by
  unfold groupSum at hp
  rcases List.mem_map.mp hp with ⟨k, hk, rfl⟩
  rfl

theorem groupSum_find {α : Type} (keyOf : α → Option String) (valOf : α → ℚ) (l : List α)
    (k : String) :
    (groupSum keyOf valOf l).find? (fun p => decide (p.1 = k)) =
      if k ∈ groupKeys keyOf l
      then some (k, ((l.filter (fun x => decide (keyOf x = some k))).map valOf).sum)
      else none := by
  unfold groupSum
  exact find_map_keyed _ Prod.fst (fun _ => rfl) _ _

theorem filter_key_nil {β : Type} (tbl : List (String × β)) (k : String)
    (h : k ∉ tbl.map Prod.fst) :
    tbl.filter (fun p => decide (p.1 = k)) = [] := by
  apply List.filter_eq_nil_iff.mpr
  intro p hp
  simp only [decide_eq_true_eq]
  intro hpk
  exact h (hpk ▸ List.mem_map_of_mem Prod.fst hp)

theorem leftMatches_eq_of_nodup {β : Type} (tbl : List (String × β)) (k : String)
    (h : (tbl.map Prod.fst).Nodup) :
    leftMatches tbl k = ((tbl.find? (fun p => decide (p.1 = k))).map Prod.snd).toList := by
  induction tbl with
  | nil => simp [leftMatches]
  | cons a l ih =>
    rw [List.map_cons, List.nodup_cons] at h
    by_cases ha : a.1 = k
    · have h0 : l.filter (fun p => decide (p.1 = k)) = [] :=
        filter_key_nil l k (ha ▸ h.1)
      unfold leftMatches
      rw [List.filter_cons_of_pos (by simp [ha]), List.find?_cons_of_pos _ (by simp [ha]), h0]
      rfl
    · unfold leftMatches at ih ⊢
      rw [List.filter_cons_of_neg (by simp [ha]), List.find?_cons_of_neg _ (by simp [ha])]
      exact ih h.2

theorem mergeUnitCost_eq (g unit_cost : List (String × ℚ))
    (h : (unit_cost.map Prod.fst).Nodup) :
    mergeUnitCost g unit_cost = g.map (fun p => (p.1, p.2, ucLook unit_cost p.1)) := by
  induction g with
  | nil => rfl
  | cons p g ih =>
    simp only [mergeUnitCost, List.flatMap_cons] at ih ⊢
    rw [ih, List.map_cons]
    rw [leftMatches_eq_of_nodup _ _ h]
    cases hf : unit_cost.find? (fun q => decide (q.1 = p.1)) with
    | none => simp [ucLook, hf]
    | some pr => simp [ucLook, hf]

theorem mergedBom_eq (mat : List MatRow) (bom : List BomRow)
    (h : (mat.map MatRow.operacion).Nodup) :
    mergedBom mat bom =
      bom.map (fun b => ⟨b.sku, b.cantidad_op.getD 0, costOfOp mat b.operacion⟩) := by
  have hkeys : ((mat.map (fun r => (r.operacion, r.costo_operacion))).map Prod.fst).Nodup := by
    rw [List.map_map]
    exact h
  induction bom with
  | nil => rfl
  | cons b bom ih =>
    simp only [mergedBom, List.flatMap_cons] at ih ⊢
    rw [ih, List.map_cons]
    rw [leftMatches_eq_of_nodup _ _ hkeys, List.find?_map]
    have hcomp :
        List.find?
            ((fun p => decide (p.1 = b.operacion)) ∘ fun r : MatRow => (r.operacion, r.costo_operacion))
            mat =
          List.find? (fun r : MatRow => decide (r.operacion = b.operacion)) mat := rfl
    rw [hcomp]
    cases hf : mat.find? (fun r => decide (r.operacion = b.operacion)) with
    | none => simp [costOfOp, hf]
    | some r => simp [costOfOp, hf]

theorem costedTable_eq (cells : List (Option String × Option ℚ)) (uc : List (String × ℚ))
    (h : (uc.map Prod.fst).Nodup) :
    costedTable cells uc = (groupKeys Prod.fst cells).map
      (fun k => ⟨k, cellQty cells k, ucLook uc k, cellQty cells k * ucLook uc k⟩) := by
  unfold costedTable withTotal
  rw [mergeUnitCost_eq _ _ h]
  rw [show groupSum Prod.fst (fun c => c.2.getD 0) cells =
        (groupKeys Prod.fst cells).map (fun k => (k, cellQty cells k)) from rfl]
  rw [List.map_map, List.map_map]
  rfl

theorem costedTable_find (cells : List (Option String × Option ℚ)) (uc : List (String × ℚ))
    (k : String) (h : (uc.map Prod.fst).Nodup) :
    (costedTable cells uc).find? (fun r => decide (r.sku = k)) =
      if k ∈ groupKeys Prod.fst cells
      then some ⟨k, cellQty cells k, ucLook uc k, cellQty cells k * ucLook uc k⟩
      else none := by
  rw [costedTable_eq cells uc h]
  exact find_map_keyed _ CostedRow.sku (fun _ => rfl) _ _

theorem cellQty_append (cells : List (Option String × Option ℚ)) (s : Option String)
    (q : Option ℚ) (k : String) :
    cellQty (cells ++ [(s, q)]) k =
      cellQty cells k + (if s = some k then q.getD 0 else 0) := by
  unfold cellQty
  rw [List.filter_append]
  by_cases hs : s = some k
  · simp [List.filter_cons, hs]
  · simp [List.filter_cons, hs]

theorem mem_groupKeys_append {α : Type} (keyOf : α → Option String) (l : List α) (x : α)
    (k : String) :
    k ∈ groupKeys keyOf (l ++ [x]) ↔ k ∈ groupKeys keyOf l ∨ keyOf x = some k := by
  rw [mem_groupKeys, mem_groupKeys]
  constructor
  · rintro ⟨a, ha, hak⟩
    rcases List.mem_append.mp ha with h1 | h1
    · exact Or.inl ⟨a, h1, hak⟩
    · rw [List.mem_singleton.mp h1] at hak
      exact Or.inr hak
  · rintro (⟨a, ha, hak⟩ | hx)
    · exact ⟨a, List.mem_append_left _ ha, hak⟩
    · exact ⟨x, List.mem_append_right _ (List.mem_singleton.mpr rfl), hx⟩

theorem groupSum_snoc_none {α : Type} (keyOf : α → Option String) (valOf : α → ℚ)
    (l : List α) (x : α) (hx : keyOf x = none) :
    groupSum keyOf valOf (l ++ [x]) = groupSum keyOf valOf l := by
  have hkeys : groupKeys keyOf (l ++ [x]) = groupKeys keyOf l := by
    unfold groupKeys
    rw [List.map_append, List.filterMap_append]
    simp [hx]
  unfold groupSum
  rw [hkeys]
  apply List.map_congr_left
  intro k hk
  rw [List.filter_append]
  have hone : [x].filter (fun a => decide (keyOf a = some k)) = [] := by simp [hx]
  rw [hone, List.append_nil]

theorem inWindow_some (ms today d : Date) :
    inWindow ms today (some d) = true ↔
      daysFromCivil ms ≤ daysFromCivil d ∧ daysFromCivil d ≤ daysFromCivil today := by
  simp [inWindow]

theorem daysFromCivil_first_le (y m d : Nat) (h : 1 ≤ d) :
    daysFromCivil ⟨y, m, 1⟩ ≤ daysFromCivil ⟨y, m, d⟩ := by
  simp only [daysFromCivil]
  by_cases hm : m ≤ 2
  · simp only [if_pos hm]
    omega
  · simp only [if_neg hm]
    omega

theorem month_kpis_prod (mm : List MovRow) (rm : List RepRow) (uc : List (String × ℚ)) :
    (month_kpis mm rm uc).prod_by_sku =
      costedTable (mm.map (fun r => (r.sku, r.cantidad))) uc := rfl

theorem month_kpis_ventas (mm : List MovRow) (rm : List RepRow) (uc : List (String × ℚ)) :
    (month_kpis mm rm uc).ventas_by_sku =
      costedTable (rm.map (fun r => (r.sku, r.cantidad))) uc := rfl

theorem month_kpis_total_fab (mm : List MovRow) (rm : List RepRow) (uc : List (String × ℚ)) :
    (month_kpis mm rm uc).total_fabricados =
      (if (costedTable (mm.map (fun r => (r.sku, r.cantidad))) uc).isEmpty then 0
       else ratTrunc (((costedTable (mm.map (fun r => (r.sku, r.cantidad))) uc).map
         (fun r => r.cantidad)).sum)) := rfl

theorem month_kpis_costo_fab (mm : List MovRow) (rm : List RepRow) (uc : List (String × ℚ)) :
    (month_kpis mm rm uc).costo_mo_fabricado =
      (if (costedTable (mm.map (fun r => (r.sku, r.cantidad))) uc).isEmpty then 0
       else ((costedTable (mm.map (fun r => (r.sku, r.cantidad))) uc).map
         (fun r => r.costo_mo_total)).sum) := rfl

theorem month_kpis_total_vend (mm : List MovRow) (rm : List RepRow) (uc : List (String × ℚ)) :
    (month_kpis mm rm uc).total_vendidos =
      (if (costedTable (rm.map (fun r => (r.sku, r.cantidad))) uc).isEmpty then 0
       else ratTrunc (((costedTable (rm.map (fun r => (r.sku, r.cantidad))) uc).map
         (fun r => r.cantidad)).sum)) := rfl

theorem month_kpis_costo_rec (mm : List MovRow) (rm : List RepRow) (uc : List (String × ℚ)) :
    (month_kpis mm rm uc).costo_mo_recuperado =
      (if (costedTable (rm.map (fun r => (r.sku, r.cantidad))) uc).isEmpty then 0
       else ((costedTable (rm.map (fun r => (r.sku, r.cantidad))) uc).map
         (fun r => r.costo_mo_total)).sum) := rfl

theorem month_kpis_margen (mm : List MovRow) (rm : List RepRow) (uc : List (String × ℚ)) :
    (month_kpis mm rm uc).margen_bruto_actual =
      (if rm.isEmpty then 0 else (rm.map (fun r => r.margen.getD 0)).sum) := rfl

theorem aggregate_eq (df_mov : List MovRow) (df_rep : List RepRow)
    (uc : List (String × ℚ)) (today : Date) :
    aggregate_current_month df_mov df_rep uc today =
      month_kpis
        (df_mov.filter (fun r => inWindow (month_bounds today).1 today r.fecha))
        (df_rep.filter (fun r => inWindow (month_bounds today).1 today r.fecha)) uc := rfl

/-- C7: the daily objective is the monthly budget divided by the
business days of the month, defined as 0 when that count is 0 (no
division fault); the objective-to-date is the daily objective times
the elapsed business days; and both percentage-of-objective metrics
are defined as 0 when the objective-to-date is 0. -/
theorem C7_objective_division_guards (c a : ℚ) (d t : ℤ) :
    objetivo_diario c 0 = 0
    ∧ (d ≠ 0 → objetivo_diario c d = c / (d : ℚ))
    ∧ objetivo_a_hoy c d t = objetivo_diario c d * (t : ℚ)
    ∧ pct_fabricado a 0 = 0
    ∧ pct_recuperado a 0 = 0 := by
  refine ⟨by simp [objetivo_diario], ?_, rfl, by simp [pct_fabricado], by simp [pct_recuperado]⟩
  intro hd
  simp [objetivo_diario, hd]

/-- C7 witness: at the concrete inputs budget 100 over 20 business
days the guarded division takes its dividing branch. -/
theorem C7_objective_division_guards_witness :
    objetivo_diario 100 20 = 100 / (20 : ℚ) :=
  (C7_objective_division_guards 100 0 20 0).2.1 (by decide)

/-- C8: business_days_count(D, D) is 1 when D is a Monday-to-Friday
day and 0 otherwise; business_days_count(2024-06-03, 2024-06-07) = 5
(Monday alone counts 1, Sunday 0); and whenever the end date is
before the start date the result is non-positive. -/
theorem C8_business_days_count (D s e : Date) :
    business_days_count D D = (if isBusinessDayNum (daysFromCivil D) then 1 else 0)
    ∧ business_days_count ⟨2024, 6, 3⟩ ⟨2024, 6, 7⟩ = 5
    ∧ business_days_count ⟨2024, 6, 3⟩ ⟨2024, 6, 3⟩ = 1
    ∧ business_days_count ⟨2024, 6, 9⟩ ⟨2024, 6, 9⟩ = 0
    ∧ (daysFromCivil e < daysFromCivil s → business_days_count s e ≤ 0) := by
  refine ⟨?_, by decide, by decide, by decide, ?_⟩
  · unfold business_days_count busdayCountNum
    rw [if_pos (by omega : daysFromCivil D ≤ daysFromCivil D + 1)]
    have h2 : (daysFromCivil D + 1 - daysFromCivil D).toNat = 1 := by omega
    rw [h2]
    have h3 : List.range 1 = [0] := rfl
    rw [h3]
    cases hB : isBusinessDayNum (daysFromCivil D) <;>
      simp [List.countP_cons, hB]
  · intro hlt
    unfold business_days_count busdayCountNum
    by_cases hc : daysFromCivil s ≤ daysFromCivil e + 1
    · have heq : daysFromCivil e + 1 - daysFromCivil s = 0 := by omega
      rw [if_pos hc, heq]
      simp
    · rw [if_neg hc]
      omega

/-- C8 witness: a reversed pair (2024-06-10 down to 2024-06-03)
yields a non-positive count. -/
theorem C8_business_days_count_witness :
    business_days_count ⟨2024, 6, 10⟩ ⟨2024, 6, 3⟩ ≤ 0 :=
  (C8_business_days_count ⟨2024, 6, 10⟩ ⟨2024, 6, 10⟩ ⟨2024, 6, 3⟩).2.2.2.2 (by decide)

/-- C2: the window the aggregator uses starts at
month_bounds(today).start, the first calendar day of the month of
today, ends at today, and the filter it applies to both the movement
and the sales records is inclusive at both ends: a record dated
exactly on the first of the month or exactly on today passes it. -/
theorem C2_month_to_date_window (today : Date) (h1 : 1 ≤ today.day) :
    (month_bounds today).1 = ⟨today.year, today.month, 1⟩
    ∧ inWindow (month_bounds today).1 today (some ⟨today.year, today.month, 1⟩) = true
    ∧ inWindow (month_bounds today).1 today (some today) = true
    ∧ (∀ d : Date, inWindow (month_bounds today).1 today (some d) = true ↔
        daysFromCivil (month_bounds today).1 ≤ daysFromCivil d ∧
          daysFromCivil d ≤ daysFromCivil today)
    ∧ (∀ (df_mov : List MovRow) (df_rep : List RepRow) (uc : List (String × ℚ)),
        aggregate_current_month df_mov df_rep uc today =
          month_kpis
            (df_mov.filter (fun r => inWindow (month_bounds today).1 today r.fecha))
            (df_rep.filter (fun r => inWindow (month_bounds today).1 today r.fecha)) uc) := by
  have hle : daysFromCivil ⟨today.year, today.month, 1⟩ ≤ daysFromCivil today :=
    daysFromCivil_first_le today.year today.month today.day h1
  refine ⟨rfl, ?_, ?_, ?_, fun _ _ _ => rfl⟩
  · rw [inWindow_some]
    exact ⟨le_refl _, hle⟩
  · rw [inWindow_some]
    exact ⟨hle, le_refl _⟩
  · intro d
    exact inWindow_some _ _ _

/-- C2 witness: with today = 2024-06-20, a record dated 2024-06-01
and a record dated 2024-06-20 both pass the month-to-date filter. -/
theorem C2_month_to_date_window_witness :
    inWindow (month_bounds ⟨2024, 6, 20⟩).1 ⟨2024, 6, 20⟩ (some ⟨2024, 6, 1⟩) = true
    ∧ inWindow (month_bounds ⟨2024, 6, 20⟩).1 ⟨2024, 6, 20⟩ (some ⟨2024, 6, 20⟩) = true :=
  ⟨(C2_month_to_date_window ⟨2024, 6, 20⟩ (by decide)).2.1,
   (C2_month_to_date_window ⟨2024, 6, 20⟩ (by decide)).2.2.1⟩

/-- C1: with a keyed cost table, compute_unit_labor_cost has no
duplicate SKU rows and has a row exactly for each SKU appearing in
some BOM line; each row carries the sum over that SKU of (operation
quantity x operation cost) with a missing cost (operation absent from
the cost table or null cost) and a missing quantity contributing 0;
an empty BOM yields an empty output; and a SKU whose operations all
have zero or missing cost gets unit cost 0, not an error. -/
theorem C1_unit_labor_cost_allocation (mat : List MatRow) (bom : List BomRow)
    (hmat : (mat.map MatRow.operacion).Nodup) :
    ((compute_unit_labor_cost mat bom).map Prod.fst).Nodup
    ∧ (∀ s : String, (∃ p ∈ compute_unit_labor_cost mat bom, p.1 = s) ↔
        ∃ b ∈ bom, b.sku = some s)
    ∧ (∀ p ∈ compute_unit_labor_cost mat bom, p.2 = specUnitLaborCost mat bom p.1)
    ∧ (bom = [] → compute_unit_labor_cost mat bom = [])
    ∧ (∀ s : String, ∀ p ∈ compute_unit_labor_cost mat bom, p.1 = s →
        (∀ b ∈ bom, b.sku = some s → costOfOp mat b.operacion = 0) → p.2 = 0) := by
  have hmerged := mergedBom_eq mat bom hmat
  have hval : ∀ p ∈ compute_unit_labor_cost mat bom, p.2 = specUnitLaborCost mat bom p.1 := by
    intro p hp
    unfold compute_unit_labor_cost at hp
    have hv := groupSum_val _ _ _ _ hp
    rw [hmerged, List.filter_map, List.map_map] at hv
    exact hv
  refine ⟨?_, ?_, hval, ?_, ?_⟩
  · unfold compute_unit_labor_cost
    rw [groupSum_keys]
    unfold groupKeys
    exact List.nodup_dedup _
  · intro s
    constructor
    · rintro ⟨p, hp, rfl⟩
      have hmem : p.1 ∈ (compute_unit_labor_cost mat bom).map Prod.fst :=
        List.mem_map_of_mem _ hp
      unfold compute_unit_labor_cost at hmem
      rw [groupSum_keys, mem_groupKeys] at hmem
      rcases hmem with ⟨row, hrow, hrows⟩
      rw [hmerged] at hrow
      rcases List.mem_map.mp hrow with ⟨b, hb, rfl⟩
      exact ⟨b, hb, hrows⟩
    · rintro ⟨b, hb, hbs⟩
      have hmem : s ∈ groupKeys BomCostRow.sku (mergedBom mat bom) := by
        rw [mem_groupKeys]
        refine ⟨⟨b.sku, b.cantidad_op.getD 0, costOfOp mat b.operacion⟩, ?_, hbs⟩
        rw [hmerged]
        exact List.mem_map_of_mem _ hb
      have hmem2 : s ∈ (compute_unit_labor_cost mat bom).map Prod.fst := by
        unfold compute_unit_labor_cost
        rw [groupSum_keys]
        exact hmem
      rcases List.mem_map.mp hmem2 with ⟨p, hp, hps⟩
      exact ⟨p, hp, hps⟩
  · intro hbom
    subst hbom
    rfl
  · intro s p hp hps hz
    rw [hval p hp, hps]
    unfold specUnitLaborCost
    apply List.sum_eq_zero
    intro x hx
    rcases List.mem_map.mp hx with ⟨b, hb, rfl⟩
    have hbf := List.mem_filter.mp hb
    have hbs : b.sku = some s := of_decide_eq_true hbf.2
    rw [hz b hbf.1 hbs, mul_zero]

/-- C1 witness: a keyed cost table (OP1 cost 3, OP2 null cost) and a
BOM where SKU A uses OP1 with quantity 2, OP2 with quantity 7 and the
absent OP3; the computed row for A carries 6, the spec-side sum. -/
theorem C1_unit_labor_cost_allocation_witness :
    specUnitLaborCost [⟨"OP1", some 3⟩, ⟨"OP2", none⟩]
        [⟨some "A", "OP1", some 2⟩, ⟨some "A", "OP2", some 7⟩, ⟨some "A", "OP3", none⟩]
        "A" = 6 := by
  have h := (C1_unit_labor_cost_allocation
      [⟨"OP1", some 3⟩, ⟨"OP2", none⟩]
      [⟨some "A", "OP1", some 2⟩, ⟨some "A", "OP2", some 7⟩, ⟨some "A", "OP3", none⟩]
      (by decide)).2.2.1 ("A", 6) (by with_unfolding_all decide)
  exact h.symm

/-- C3: total margin is the sum of the raw per-row MARGEN field over
the date-filtered sales records, taken before grouping and
independently of the unit cost; concretely, sales of SKU B (qty 2
margin 100, qty 3 margin 50) with B absent from the BOM give the
aggregate row (B, quantity 5, unit cost 0, recovered cost 0) and
total margin 150. -/
theorem C3_margin_sums_raw (mov : List MovRow) (rep : List RepRow)
    (uc : List (String × ℚ)) (today : Date) :
    (aggregate_current_month mov rep uc today).margen_bruto_actual =
      ((rep.filter (fun r => inWindow (month_bounds today).1 today r.fecha)).map
        (fun r => r.margen.getD 0)).sum
    ∧ ventasRow (aggregate_current_month []
        [⟨some ⟨2024, 6, 5⟩, some "B", some 2, some 100⟩,
         ⟨some ⟨2024, 6, 10⟩, some "B", some 3, some 50⟩]
        (compute_unit_labor_cost [⟨"OP1", some 3⟩] [⟨some "A", "OP1", some 2⟩])
        ⟨2024, 6, 20⟩) "B" = some ⟨"B", 5, 0, 0⟩
    ∧ (aggregate_current_month []
        [⟨some ⟨2024, 6, 5⟩, some "B", some 2, some 100⟩,
         ⟨some ⟨2024, 6, 10⟩, some "B", some 3, some 50⟩]
        (compute_unit_labor_cost [⟨"OP1", some 3⟩] [⟨some "A", "OP1", some 2⟩])
        ⟨2024, 6, 20⟩).margen_bruto_actual = 150
    ∧ (aggregate_current_month []
        [⟨some ⟨2024, 6, 5⟩, some "B", some 2, some 100⟩,
         ⟨some ⟨2024, 6, 10⟩, some "B", some 3, some 50⟩]
        (compute_unit_labor_cost [⟨"OP1", some 3⟩] [⟨some "A", "OP1", some 2⟩])
        ⟨2024, 6, 20⟩).total_vendidos = 5
    ∧ (aggregate_current_month []
        [⟨some ⟨2024, 6, 5⟩, some "B", some 2, some 100⟩,
         ⟨some ⟨2024, 6, 10⟩, some "B", some 3, some 50⟩]
        (compute_unit_labor_cost [⟨"OP1", some 3⟩] [⟨some "A", "OP1", some 2⟩])
        ⟨2024, 6, 20⟩).costo_mo_recuperado = 0 := by
  refine ⟨?_, by with_unfolding_all decide, by with_unfolding_all decide,
    by with_unfolding_all decide, by with_unfolding_all decide⟩
  rw [aggregate_eq, month_kpis_margen]
  exact guardSum _ _

/-- C4: a month-filtered movement (resp. sales) record set that is
empty gives an empty per-SKU table and 0 for every dependent scalar,
with no error raised. -/
theorem C4_empty_filtered_sets (mov : List MovRow) (rep : List RepRow)
    (uc : List (String × ℚ)) (today : Date) :
    (mov.filter (fun r => inWindow (month_bounds today).1 today r.fecha) = [] →
      (aggregate_current_month mov rep uc today).prod_by_sku = []
      ∧ (aggregate_current_month mov rep uc today).total_fabricados = 0
      ∧ (aggregate_current_month mov rep uc today).costo_mo_fabricado = 0)
    ∧ (rep.filter (fun r => inWindow (month_bounds today).1 today r.fecha) = [] →
      (aggregate_current_month mov rep uc today).ventas_by_sku = []
      ∧ (aggregate_current_month mov rep uc today).total_vendidos = 0
      ∧ (aggregate_current_month mov rep uc today).costo_mo_recuperado = 0
      ∧ (aggregate_current_month mov rep uc today).margen_bruto_actual = 0) := by
  constructor
  · intro h
    rw [aggregate_eq, h]
    exact ⟨rfl, rfl, rfl⟩
  · intro h
    rw [aggregate_eq, h]
    exact ⟨rfl, rfl, rfl, rfl⟩

/-- C4 witness: with empty inputs both filtered sets are empty and
every output is empty or 0. -/
theorem C4_empty_filtered_sets_witness :
    (aggregate_current_month [] [] [] ⟨2024, 6, 20⟩).prod_by_sku = []
    ∧ (aggregate_current_month [] [] [] ⟨2024, 6, 20⟩).total_fabricados = 0
    ∧ (aggregate_current_month [] [] [] ⟨2024, 6, 20⟩).ventas_by_sku = []
    ∧ (aggregate_current_month [] [] [] ⟨2024, 6, 20⟩).margen_bruto_actual = 0 :=
  ⟨((C4_empty_filtered_sets [] [] [] ⟨2024, 6, 20⟩).1 rfl).1,
   ((C4_empty_filtered_sets [] [] [] ⟨2024, 6, 20⟩).1 rfl).2.1,
   ((C4_empty_filtered_sets [] [] [] ⟨2024, 6, 20⟩).2 rfl).1,
   ((C4_empty_filtered_sets [] [] [] ⟨2024, 6, 20⟩).2 rfl).2.2.2⟩

theorem inWindow_none (ms today : Date) : inWindow ms today none = false := rfl

/-- C6: a movement or sales row whose date fails to parse (NaT after
coercion, modelled as none) is silently excluded by the month-window
filter: inserting such a row anywhere in either record set leaves the
entire aggregate unchanged, and the (total) computation never
raises. -/
theorem C6_unparseable_date_excluded (mov1 mov2 : List MovRow) (rep1 rep2 : List RepRow)
    (uc : List (String × ℚ)) (today : Date) (m : MovRow) (r : RepRow)
    (hm : m.fecha = none) (hr : r.fecha = none) :
    aggregate_current_month (mov1 ++ m :: mov2) (rep1 ++ r :: rep2) uc today =
      aggregate_current_month (mov1 ++ mov2) (rep1 ++ rep2) uc today := by
  rw [aggregate_eq, aggregate_eq]
  have hmf : (mov1 ++ m :: mov2).filter (fun x => inWindow (month_bounds today).1 today x.fecha)
      = (mov1 ++ mov2).filter (fun x => inWindow (month_bounds today).1 today x.fecha) := by
    rw [List.filter_append, List.filter_append, List.filter_cons, hm, inWindow_none]
    simp
  have hrf : (rep1 ++ r :: rep2).filter (fun x => inWindow (month_bounds today).1 today x.fecha)
      = (rep1 ++ rep2).filter (fun x => inWindow (month_bounds today).1 today x.fecha) := by
    rw [List.filter_append, List.filter_append, List.filter_cons, hr, inWindow_none]
    simp
  rw [hmf, hrf]

/-- C6 witness: inserting a movement row and a sales row with
unparseable dates changes nothing. -/
theorem C6_unparseable_date_excluded_witness :
    aggregate_current_month
        [⟨some ⟨2024, 6, 5⟩, some "A", some 1⟩, ⟨none, some "A", some 100⟩]
        [⟨none, some "B", some 2, some 50⟩] [] ⟨2024, 6, 20⟩ =
      aggregate_current_month [⟨some ⟨2024, 6, 5⟩, some "A", some 1⟩] [] [] ⟨2024, 6, 20⟩ :=
  C6_unparseable_date_excluded [⟨some ⟨2024, 6, 5⟩, some "A", some 1⟩] [] [] []
    [] ⟨2024, 6, 20⟩ ⟨none, some "A", some 100⟩ ⟨none, some "B", some 2, some 50⟩ rfl rfl

theorem guardTrunc {α : Type} (l : List α) (f : α → ℚ) :
    (if l.isEmpty then (0 : ℤ) else ratTrunc ((l.map f).sum)) = ratTrunc ((l.map f).sum) := by
  cases l with
  | nil => simp [ratTrunc]
  | cons a l => simp

theorem ratTrunc_ne (q : ℚ) (h : q.den ≠ 1) : (ratTrunc q : ℚ) ≠ q := by
  intro he
  apply h
  rw [← he]
  exact Rat.den_intCast _

/-- C9: the scalar totals of units produced and units sold are the
truncation toward zero (the int cast) of the summed per-SKU
quantities, so whenever that sum is fractional the scalar differs
from the exact sum kept in the per-SKU table. -/
theorem C9_scalar_totals_truncate (mov : List MovRow) (rep : List RepRow)
    (uc : List (String × ℚ)) (today : Date) :
    (aggregate_current_month mov rep uc today).total_fabricados =
      ratTrunc (((aggregate_current_month mov rep uc today).prod_by_sku.map
        (fun r => r.cantidad)).sum)
    ∧ (aggregate_current_month mov rep uc today).total_vendidos =
      ratTrunc (((aggregate_current_month mov rep uc today).ventas_by_sku.map
        (fun r => r.cantidad)).sum)
    ∧ ((((aggregate_current_month mov rep uc today).prod_by_sku.map
          (fun r => r.cantidad)).sum : ℚ).den ≠ 1 →
        ((aggregate_current_month mov rep uc today).total_fabricados : ℚ) ≠
          ((aggregate_current_month mov rep uc today).prod_by_sku.map
            (fun r => r.cantidad)).sum)
    ∧ ((((aggregate_current_month mov rep uc today).ventas_by_sku.map
          (fun r => r.cantidad)).sum : ℚ).den ≠ 1 →
        ((aggregate_current_month mov rep uc today).total_vendidos : ℚ) ≠
          ((aggregate_current_month mov rep uc today).ventas_by_sku.map
            (fun r => r.cantidad)).sum) := by
  have hA : (aggregate_current_month mov rep uc today).total_fabricados =
      ratTrunc (((aggregate_current_month mov rep uc today).prod_by_sku.map
        (fun r => r.cantidad)).sum) := by
    rw [aggregate_eq, month_kpis_total_fab, month_kpis_prod]
    exact guardTrunc _ _
  have hB : (aggregate_current_month mov rep uc today).total_vendidos =
      ratTrunc (((aggregate_current_month mov rep uc today).ventas_by_sku.map
        (fun r => r.cantidad)).sum) := by
    rw [aggregate_eq, month_kpis_total_vend, month_kpis_ventas]
    exact guardTrunc _ _
  refine ⟨hA, hB, ?_, ?_⟩
  · intro h
    rw [hA]
    exact ratTrunc_ne _ h
  · intro h
    rw [hB]
    exact ratTrunc_ne _ h

/-- C9 witness: one in-window movement of quantity 3/2 makes the
per-SKU sum fractional, and the truncated scalar total differs from
it. -/
theorem C9_scalar_totals_truncate_witness :
    ((aggregate_current_month [⟨some ⟨2024, 6, 5⟩, some "A", some (3/2)⟩] [] []
        ⟨2024, 6, 20⟩).total_fabricados : ℚ) ≠
      ((aggregate_current_month [⟨some ⟨2024, 6, 5⟩, some "A", some (3/2)⟩] [] []
        ⟨2024, 6, 20⟩).prod_by_sku.map (fun r => r.cantidad)).sum :=
  (C9_scalar_totals_truncate [⟨some ⟨2024, 6, 5⟩, some "A", some (3/2)⟩] [] []
    ⟨2024, 6, 20⟩).2.2.1 (by with_unfolding_all decide)

theorem filter_snoc_of_pos {α : Type} (p : α → Bool) (l : List α) (x : α) (hx : p x = true) :
    (l ++ [x]).filter p = l.filter p ++ [x] := by
  rw [List.filter_append, List.filter_cons_of_pos hx, List.filter_nil]

theorem costedTable_snoc_none (cells : List (Option String × Option ℚ))
    (uc : List (String × ℚ)) (q : Option ℚ) :
    costedTable (cells ++ [(none, q)]) uc = costedTable cells uc := by
  unfold costedTable
  rw [groupSum_snoc_none _ _ _ _ rfl]

/-- C10: per-SKU aggregate rows are keyed by present SKUs only: a
month-filtered record whose SKU cell is missing is dropped by the
grouping, contributing to no per-SKU row and to none of the quantity
or labor-cost scalars, while its margin still feeds the total margin,
which is summed over the filtered rows before grouping. -/
theorem C10_missing_sku_dropped (mov : List MovRow) (rep : List RepRow)
    (uc : List (String × ℚ)) (today : Date) (m : MovRow) (r : RepRow)
    (hms : m.sku = none) (hrs : r.sku = none)
    (hmw : inWindow (month_bounds today).1 today m.fecha = true)
    (hrw : inWindow (month_bounds today).1 today r.fecha = true) :
    (aggregate_current_month (mov ++ [m]) (rep ++ [r]) uc today).prod_by_sku =
      (aggregate_current_month mov rep uc today).prod_by_sku
    ∧ (aggregate_current_month (mov ++ [m]) (rep ++ [r]) uc today).total_fabricados =
      (aggregate_current_month mov rep uc today).total_fabricados
    ∧ (aggregate_current_month (mov ++ [m]) (rep ++ [r]) uc today).costo_mo_fabricado =
      (aggregate_current_month mov rep uc today).costo_mo_fabricado
    ∧ (aggregate_current_month (mov ++ [m]) (rep ++ [r]) uc today).ventas_by_sku =
      (aggregate_current_month mov rep uc today).ventas_by_sku
    ∧ (aggregate_current_month (mov ++ [m]) (rep ++ [r]) uc today).total_vendidos =
      (aggregate_current_month mov rep uc today).total_vendidos
    ∧ (aggregate_current_month (mov ++ [m]) (rep ++ [r]) uc today).costo_mo_recuperado =
      (aggregate_current_month mov rep uc today).costo_mo_recuperado
    ∧ (aggregate_current_month (mov ++ [m]) (rep ++ [r]) uc today).margen_bruto_actual =
      (aggregate_current_month mov rep uc today).margen_bruto_actual + r.margen.getD 0 := by
  have hfm := filter_snoc_of_pos
    (fun x => inWindow (month_bounds today).1 today x.fecha) mov m hmw
  have hfr := filter_snoc_of_pos
    (fun x => inWindow (month_bounds today).1 today x.fecha) rep r hrw
  have hcellsm :
      ((mov.filter (fun x => inWindow (month_bounds today).1 today x.fecha) ++ [m]).map
        (fun x => (x.sku, x.cantidad))) =
      ((mov.filter (fun x => inWindow (month_bounds today).1 today x.fecha)).map
        (fun x => (x.sku, x.cantidad))) ++ [((none : Option String), m.cantidad)] := by
    simp [hms]
  have hcellsr :
      ((rep.filter (fun x => inWindow (month_bounds today).1 today x.fecha) ++ [r]).map
        (fun x => (x.sku, x.cantidad))) =
      ((rep.filter (fun x => inWindow (month_bounds today).1 today x.fecha)).map
        (fun x => (x.sku, x.cantidad))) ++ [((none : Option String), r.cantidad)] := by
    simp [hrs]
  have hprodtbl :
      costedTable
        ((mov.filter (fun x => inWindow (month_bounds today).1 today x.fecha) ++ [m]).map
          (fun x => (x.sku, x.cantidad))) uc =
      costedTable
        ((mov.filter (fun x => inWindow (month_bounds today).1 today x.fecha)).map
          (fun x => (x.sku, x.cantidad))) uc := by
    rw [hcellsm, costedTable_snoc_none]
  have hventbl :
      costedTable
        ((rep.filter (fun x => inWindow (month_bounds today).1 today x.fecha) ++ [r]).map
          (fun x => (x.sku, x.cantidad))) uc =
      costedTable
        ((rep.filter (fun x => inWindow (month_bounds today).1 today x.fecha)).map
          (fun x => (x.sku, x.cantidad))) uc := by
    rw [hcellsr, costedTable_snoc_none]
  refine ⟨?_, ?_, ?_, ?_, ?_, ?_, ?_⟩
  · rw [aggregate_eq, aggregate_eq, hfm, hfr, month_kpis_prod, month_kpis_prod]
    exact hprodtbl
  · rw [aggregate_eq, aggregate_eq, hfm, hfr, month_kpis_total_fab, month_kpis_total_fab,
      hprodtbl]
  · rw [aggregate_eq, aggregate_eq, hfm, hfr, month_kpis_costo_fab, month_kpis_costo_fab,
      hprodtbl]
  · rw [aggregate_eq, aggregate_eq, hfm, hfr, month_kpis_ventas, month_kpis_ventas]
    exact hventbl
  · rw [aggregate_eq, aggregate_eq, hfm, hfr, month_kpis_total_vend, month_kpis_total_vend,
      hventbl]
  · rw [aggregate_eq, aggregate_eq, hfm, hfr, month_kpis_costo_rec, month_kpis_costo_rec,
      hventbl]
  · rw [aggregate_eq, aggregate_eq, hfm, hfr, month_kpis_margen, month_kpis_margen,
      guardSum, guardSum, List.map_append, List.sum_append]
    simp

/-- C10 witness: adding an in-window movement row and an in-window
sales row with missing SKUs leaves the tables and the quantity and
cost scalars alone while the sales row margin (30) is added to total
margin. -/
theorem C10_missing_sku_dropped_witness :
    (aggregate_current_month
        ([⟨some ⟨2024, 6, 5⟩, some "A", some 1⟩] ++ [⟨some ⟨2024, 6, 6⟩, none, some 50⟩])
        ([] ++ [⟨some ⟨2024, 6, 7⟩, none, some 2, some 30⟩]) [] ⟨2024, 6, 20⟩).prod_by_sku =
      (aggregate_current_month [⟨some ⟨2024, 6, 5⟩, some "A", some 1⟩] [] [] ⟨2024, 6, 20⟩).prod_by_sku
    ∧ (aggregate_current_month
        ([⟨some ⟨2024, 6, 5⟩, some "A", some 1⟩] ++ [⟨some ⟨2024, 6, 6⟩, none, some 50⟩])
        ([] ++ [⟨some ⟨2024, 6, 7⟩, none, some 2, some 30⟩]) [] ⟨2024, 6, 20⟩).margen_bruto_actual =
      (aggregate_current_month [⟨some ⟨2024, 6, 5⟩, some "A", some 1⟩] [] [] ⟨2024, 6, 20⟩).margen_bruto_actual + 30 :=
  ⟨(C10_missing_sku_dropped [⟨some ⟨2024, 6, 5⟩, some "A", some 1⟩] [] [] ⟨2024, 6, 20⟩
      ⟨some ⟨2024, 6, 6⟩, none, some 50⟩ ⟨some ⟨2024, 6, 7⟩, none, some 2, some 30⟩
      rfl rfl (by decide) (by decide)).1,
   (C10_missing_sku_dropped [⟨some ⟨2024, 6, 5⟩, some "A", some 1⟩] [] [] ⟨2024, 6, 20⟩
      ⟨some ⟨2024, 6, 6⟩, none, some 50⟩ ⟨some ⟨2024, 6, 7⟩, none, some 2, some 30⟩
      rfl rfl (by decide) (by decide)).2.2.2.2.2.2⟩

theorem costedTable_snoc_some (cells : List (Option String × Option ℚ))
    (uc : List (String × ℚ)) (hnd : (uc.map Prod.fst).Nodup) (a : String) (q : Option ℚ) :
    (a ∈ groupKeys Prod.fst cells →
      (costedTable (cells ++ [(some a, q)]) uc).find? (fun r => decide (r.sku = a)) =
        some ⟨a, cellQty cells a + q.getD 0, ucLook uc a,
          (cellQty cells a + q.getD 0) * ucLook uc a⟩)
    ∧ (∀ b, b ≠ a →
      (costedTable (cells ++ [(some a, q)]) uc).find? (fun r => decide (r.sku = b)) =
        (costedTable cells uc).find? (fun r => decide (r.sku = b))) := by
  constructor
  · intro ha
    rw [costedTable_find _ _ _ hnd]
    have hmem : a ∈ groupKeys Prod.fst (cells ++ [((some a : Option String), q)]) :=
      (mem_groupKeys_append _ _ _ _).mpr (Or.inl ha)
    rw [if_pos hmem, cellQty_append]
    simp
  · intro b hb
    rw [costedTable_find _ _ _ hnd, costedTable_find _ _ _ hnd]
    have hiff : b ∈ groupKeys Prod.fst (cells ++ [((some a : Option String), q)]) ↔
        b ∈ groupKeys Prod.fst cells := by
      rw [mem_groupKeys_append]
      constructor
      · rintro (h1 | h1)
        · exact h1
        · exact absurd (Option.some.inj h1).symm hb
      · exact Or.inl
    by_cases hbm : b ∈ groupKeys Prod.fst cells
    · rw [if_pos (hiff.mpr hbm), if_pos hbm, cellQty_append,
        if_neg (fun h => hb (Option.some.inj h).symm), add_zero]
    · rw [if_neg (fun hc => hbm (hiff.mp hc)), if_neg hbm]

/-- C5 counterexample: with today = 2024-06-20, SKU A is aggregated
with quantity 5; adding one movement row for A dated 2024-06-15 —
strictly inside the month window — with quantity 0 leaves the
aggregated quantity at 5, not strictly increased, refuting the claim
as stated (the engine accepts zero and negative quantities). -/
theorem C5_strict_increase_counterexample :
    (⟨some ⟨2024, 6, 15⟩, some "A", some 0⟩ : MovRow).sku = some "A"
    ∧ daysFromCivil (month_bounds ⟨2024, 6, 20⟩).1 < daysFromCivil ⟨2024, 6, 15⟩
    ∧ daysFromCivil ⟨2024, 6, 15⟩ < daysFromCivil ⟨2024, 6, 20⟩
    ∧ prodQty (aggregate_current_month [⟨some ⟨2024, 6, 10⟩, some "A", some 5⟩] [] []
        ⟨2024, 6, 20⟩) "A" = some 5
    ∧ prodQty (aggregate_current_month
        ([⟨some ⟨2024, 6, 10⟩, some "A", some 5⟩] ++ [⟨some ⟨2024, 6, 15⟩, some "A", some 0⟩])
        [] [] ⟨2024, 6, 20⟩) "A" = some 5
    ∧ ¬ ((5 : ℚ) < 5) := by
  with_unfolding_all decide

/-- C5 (amended): adding one movement (resp. sales) row dated
strictly inside the month window, with a present strictly positive
quantity, for a SKU already present in the corresponding aggregate,
strictly increases that SKU quantity and leaves every other SKU row
of that aggregate unchanged; stated for a keyed unit-cost table,
which compute_unit_labor_cost always yields. -/
theorem C5_add_row_monotonicity (uc : List (String × ℚ)) (today : Date)
    (hnd : (uc.map Prod.fst).Nodup) :
    (∀ (mov : List MovRow) (rep : List RepRow) (m : MovRow) (dm : Date)
        (a : String) (qm q0 : ℚ),
      m.fecha = some dm →
      daysFromCivil (month_bounds today).1 < daysFromCivil dm →
      daysFromCivil dm < daysFromCivil today →
      m.sku = some a → m.cantidad = some qm → 0 < qm →
      prodQty (aggregate_current_month mov rep uc today) a = some q0 →
      (prodQty (aggregate_current_month (mov ++ [m]) rep uc today) a = some (q0 + qm)
        ∧ q0 < q0 + qm
        ∧ ∀ b, b ≠ a →
            prodRow (aggregate_current_month (mov ++ [m]) rep uc today) b =
              prodRow (aggregate_current_month mov rep uc today) b))
    ∧ (∀ (mov : List MovRow) (rep : List RepRow) (r : RepRow) (dr : Date)
        (a : String) (qr q0 : ℚ),
      r.fecha = some dr →
      daysFromCivil (month_bounds today).1 < daysFromCivil dr →
      daysFromCivil dr < daysFromCivil today →
      r.sku = some a → r.cantidad = some qr → 0 < qr →
      ventasQty (aggregate_current_month mov rep uc today) a = some q0 →
      (ventasQty (aggregate_current_month mov (rep ++ [r]) uc today) a = some (q0 + qr)
        ∧ q0 < q0 + qr
        ∧ ∀ b, b ≠ a →
            ventasRow (aggregate_current_month mov (rep ++ [r]) uc today) b =
              ventasRow (aggregate_current_month mov rep uc today) b)) := by
  constructor
  · intro mov rep m dm a qm q0 hf hw1 hw2 hs hq hpos hbase
    have hwin : inWindow (month_bounds today).1 today m.fecha = true := by
      rw [hf]
      exact (inWindow_some _ _ _).mpr ⟨le_of_lt hw1, le_of_lt hw2⟩
    have hfm := filter_snoc_of_pos
      (fun x => inWindow (month_bounds today).1 today x.fecha) mov m hwin
    have hcells :
        ((mov.filter (fun x => inWindow (month_bounds today).1 today x.fecha) ++ [m]).map
          (fun x => (x.sku, x.cantidad))) =
        ((mov.filter (fun x => inWindow (month_bounds today).1 today x.fecha)).map
          (fun x => (x.sku, x.cantidad))) ++ [(some a, some qm)] := by
      simp [hs, hq]
    unfold prodQty prodRow at hbase
    rw [aggregate_eq, month_kpis_prod, costedTable_find _ _ _ hnd] at hbase
    by_cases hmem : a ∈ groupKeys Prod.fst
        ((mov.filter (fun x => inWindow (month_bounds today).1 today x.fecha)).map
          (fun x => (x.sku, x.cantidad)))
    · rw [if_pos hmem] at hbase
      simp at hbase
      refine ⟨?_, ?_, ?_⟩
      · unfold prodQty prodRow
        rw [aggregate_eq, month_kpis_prod, hfm, hcells,
          (costedTable_snoc_some _ uc hnd a (some qm)).1 hmem]
        simp [hbase]
      · exact lt_add_of_pos_right q0 hpos
      · intro b hb
        unfold prodRow
        rw [aggregate_eq, aggregate_eq, month_kpis_prod, month_kpis_prod, hfm, hcells]
        exact (costedTable_snoc_some _ uc hnd a (some qm)).2 b hb
    · rw [if_neg hmem] at hbase
      exact absurd hbase (by simp)
  · intro mov rep r dr a qr q0 hf hw1 hw2 hs hq hpos hbase
    have hwin : inWindow (month_bounds today).1 today r.fecha = true := by
      rw [hf]
      exact (inWindow_some _ _ _).mpr ⟨le_of_lt hw1, le_of_lt hw2⟩
    have hfr := filter_snoc_of_pos
      (fun x => inWindow (month_bounds today).1 today x.fecha) rep r hwin
    have hcells :
        ((rep.filter (fun x => inWindow (month_bounds today).1 today x.fecha) ++ [r]).map
          (fun x => (x.sku, x.cantidad))) =
        ((rep.filter (fun x => inWindow (month_bounds today).1 today x.fecha)).map
          (fun x => (x.sku, x.cantidad))) ++ [(some a, some qr)] := by
      simp [hs, hq]
    unfold ventasQty ventasRow at hbase
    rw [aggregate_eq, month_kpis_ventas, costedTable_find _ _ _ hnd] at hbase
    by_cases hmem : a ∈ groupKeys Prod.fst
        ((rep.filter (fun x => inWindow (month_bounds today).1 today x.fecha)).map
          (fun x => (x.sku, x.cantidad)))
    · rw [if_pos hmem] at hbase
      simp at hbase
      refine ⟨?_, ?_, ?_⟩
      · unfold ventasQty ventasRow
        rw [aggregate_eq, month_kpis_ventas, hfr, hcells,
          (costedTable_snoc_some _ uc hnd a (some qr)).1 hmem]
        simp [hbase]
      · exact lt_add_of_pos_right q0 hpos
      · intro b hb
        unfold ventasRow
        rw [aggregate_eq, aggregate_eq, month_kpis_ventas, month_kpis_ventas, hfr, hcells]
        exact (costedTable_snoc_some _ uc hnd a (some qr)).2 b hb
    · rw [if_neg hmem] at hbase
      exact absurd hbase (by simp)

/-- C5 witness: adding a movement row for SKU A (quantity 2, dated
2024-06-15, strictly inside the window of today = 2024-06-20) to a
state where A is aggregated with quantity 5 yields quantity 5 + 2. -/
theorem C5_add_row_monotonicity_witness :
    prodQty (aggregate_current_month
        ([⟨some ⟨2024, 6, 10⟩, some "A", some 5⟩] ++ [⟨some ⟨2024, 6, 15⟩, some "A", some 2⟩])
        [] [] ⟨2024, 6, 20⟩) "A" = some (5 + 2) :=
  ((C5_add_row_monotonicity [] ⟨2024, 6, 20⟩ (by decide)).1
    [⟨some ⟨2024, 6, 10⟩, some "A", some 5⟩] [] ⟨some ⟨2024, 6, 15⟩, some "A", some 2⟩
    ⟨2024, 6, 15⟩ "A" 2 5 rfl (by decide) (by decide) rfl rfl (by decide)
    (by with_unfolding_all decide)).1
